import Mathlib

/-!
Verification development for the Codenames client-side game engine
(src/js/game.js and src/js/supabase-config.js), shallowly embedded in Lean.

Conventions of the embedding:
* JavaScript 32-bit integer semantics are modelled on `Nat`/`Int` with explicit
  `% 4294967296` wrapping (4294967296 = 2^32).
* The PRNG seed is tracked modulo 2^32: every consumption of `this.seed` in the
  source goes through a ToInt32/ToUint32 coercion or a bitwise operator, so only
  the value modulo 2^32 is observable.
* Strings stay strings ("red", "blue", "neutral", "assassin" card roles, as in
  the source); game codes are lists of UTF-16 code units (`List Nat`), matching
  `charCodeAt`.
* JavaScript truthiness on optional record fields is made explicit with small
  helpers (`jsStr`, `jsStrN`); `null`/`undefined` is `Option.none`.
-/

namespace Codenames

/-! ## Seeded random number generator (class SeededRandom) -/

/-- State of the Mulberry32-style generator; `seed` is kept modulo 2^32. -/
structure SeededRandom where
  seed : Nat
deriving Repr, DecidableEq

/-- One call of `SeededRandom.next()`.  Returns the advanced generator together
with the 32-bit integer `t` such that the JavaScript float result is
`t / 4294967296`.  `>>> k` is division by `2^k`, `Math.imul` is multiplication
modulo 2^32, and the float addition `t + Math.imul(..)` is exact, so addition
modulo 2^32 is faithful. -/
def next32 (r : SeededRandom) : SeededRandom × Nat :=
  let s := (r.seed + 0x6D2B79F5) % 4294967296
  let t1 := ((s ^^^ s / 32768) * (s ||| 1)) % 4294967296
  let t2 := t1 ^^^ (t1 + ((t1 ^^^ t1 / 128) * (t1 ||| 61)) % 4294967296) % 4294967296
  (⟨s⟩, t2 ^^^ t2 / 16384)

/-- In-range swap of two list positions, the body of the Fisher-Yates loop
`[result[i], result[j]] = [result[j], result[i]]`.  Out-of-range indices leave
the list unchanged (the source never produces them). -/
def swapL (l : List α) (i j : Nat) : List α :=
  match l[i]?, l[j]? with
  | some x, some y => (l.set i y).set j x
  | _, _ => l

/-- The loop of `SeededRandom.shuffle`: iterates the index `i` of the source's
`for (let i = ...; i > 0; i--)` downwards; the argument is the current index.
`Math.floor(this.next() * (i + 1))` is exact and equals `t * (i + 1) / 2^32`. -/
def shuffleAux : Nat → SeededRandom → List α → SeededRandom × List α
  | 0, r, res => (r, res)
  | i + 1, r, res =>
      let n := next32 r
      let j := n.2 * (i + 2) / 4294967296
      shuffleAux i n.1 (swapL res (i + 1) j)

/-- `SeededRandom.shuffle(array)`: copies the input and runs the Fisher-Yates
loop from index `length - 1` down to `1`, threading the generator state. -/
def SeededRandom.shuffle (r : SeededRandom) (l : List α) : SeededRandom × List α :=
  shuffleAux (l.length - 1) r l

/-! ## String hash (function hashCode) -/

/-- JavaScript ToInt32: wrap an integer to the signed 32-bit range. -/
def toInt32 (x : Int) : Int := (x + 2147483648) % 4294967296 - 2147483648

/-- One iteration of the `hashCode` loop:
`hash = ((hash << 5) - hash) + char; hash = hash & hash`.
`hash << 5` is `toInt32 (hash * 32)`, and `hash & hash` is the final ToInt32. -/
def hashStep (h : Int) (c : Nat) : Int := toInt32 (toInt32 (h * 32) - h + c)

/-- `hashCode(str)`: fold `hashStep` over the UTF-16 code units, then
`Math.abs`. -/
def hashCode (codes : List Nat) : Int := |codes.foldl hashStep 0|

/-- The specification's wording of the hash step: classic polynomial hash
`hash = hash*31 + charCode`, wrapped to 32-bit signed.  Stated separately from
`hashStep` (which transcribes the source) so the two can be compared. -/
def specHashStep (h : Int) (c : Nat) : Int := toInt32 (31 * h + c)

/-- The specification's polynomial string hash, folded to non-negative via
absolute value. -/
def specPolyHash (codes : List Nat) : Int := |codes.foldl specHashStep 0|

/-! ## Board generation (function generateBoardFromSeed) -/

/-- `currentTurn === 'red' ? 'blue' : 'red'`, as used for the assassin winner,
for `endTurn`, and for the non-starting team in board generation. -/
def otherTeam (t : String) : String := if t = "red" then "blue" else "red"

/-- Result record of `generateBoardFromSeed`. -/
structure Board where
  words : List String
  cardTypes : List String
  startingTeam : String
deriving Repr, DecidableEq

/-- `generateBoardFromSeed(gameCode)`.  The canonical `WORD_LIST` lives in a
file outside the two embedded sources, so it is a parameter.  `hashCode` is
non-negative (proved below), so taking `toNat` is faithful.
`rng.next() > 0.5` holds exactly when the 32-bit value exceeds 2^31. -/
def generateBoardFromSeed (wordList : List String) (gameCode : List Nat) : Board :=
  let r0 : SeededRandom := ⟨(hashCode gameCode).toNat⟩
  let w := r0.shuffle wordList
  let words := w.2.take 25
  let n := next32 w.1
  let startingTeam := if 2147483648 < n.2 then "red" else "blue"
  let base := List.replicate 9 startingTeam ++ List.replicate 8 (otherTeam startingTeam)
      ++ List.replicate 7 "neutral" ++ ["assassin"]
  let ts := n.1.shuffle base
  { words := words, cardTypes := ts.2, startingTeam := startingTeam }

/-! ## Game state (the GameState object) and its transitions -/

/-- One entry of `GameState.clueHistory`:
`{id: Date.now(), team, word, number, stillApplies}`. -/
structure ClueEntry where
  id : Int
  team : String
  word : String
  number : Int
  stillApplies : Bool
deriving Repr, DecidableEq

/-- The mutable fields of the `GameState` object that the embedded operations
read or write.  Counts are `Int` (JavaScript numbers may be decremented below
zero).  `players` maps player ids to role strings. -/
structure GState where
  words : List String
  cardTypes : List String
  startingTeam : String
  revealed : List Bool
  currentTurn : String
  redRemaining : Int
  blueRemaining : Int
  gameOver : Bool
  winner : Option String
  currentClue : Option String
  currentClueNumber : Int
  guessesRemaining : Int
  clueHistory : List ClueEntry
  players : List (String × String)
  lastAction : Option Nat
deriving Repr, DecidableEq

/-- `endTurn()`: clears the clue fields and flips the turn.  The local
`GameState.lastAction` is not modified (only the published record carries a
fresh `new Date().toISOString()`). -/
def endTurn (s : GState) : GState :=
  { s with currentClue := none, currentClueNumber := 0, guessesRemaining := 0,
           currentTurn := otherTeam s.currentTurn }

/-- `revealCard(index)`.  The mask entry is set first, then the team counts are
decremented for red/blue cards, then the if/else chain resolves the outcome:
assassin, red count zero, blue count zero, wrong team, own-team guess.
An out-of-range index reads `undefined` in JavaScript, modelled by the
sentinel `""` which matches no branch before the wrong-team one. -/
def revealCard (s : GState) (idx : Nat) : GState :=
  let r := s.cardTypes.getD idx ""
  let s1 := { s with revealed := s.revealed.set idx true }
  let s2 :=
    if r = "red" then { s1 with redRemaining := s1.redRemaining - 1 }
    else if r = "blue" then { s1 with blueRemaining := s1.blueRemaining - 1 }
    else s1
  if r = "assassin" then
    { s2 with gameOver := true, winner := some (otherTeam s2.currentTurn) }
  else if s2.redRemaining = 0 then
    { s2 with gameOver := true, winner := some "red" }
  else if s2.blueRemaining = 0 then
    { s2 with gameOver := true, winner := some "blue" }
  else if r ≠ s2.currentTurn then
    endTurn s2
  else
    let s3 := { s2 with guessesRemaining := s2.guessesRemaining - 1 }
    if s3.guessesRemaining = 0 then endTurn s3 else s3

/-- JavaScript `String.prototype.trim()`: strip leading and trailing
whitespace (modelled on the character list). -/
def jsTrim (w : String) : String :=
  ⟨((w.data.dropWhile Char.isWhitespace).reverse.dropWhile Char.isWhitespace).reverse⟩

/-- JavaScript `word.includes(' ')`. -/
def jsIncludesSpace (w : String) : Bool := w.data.contains ' '

/-- JavaScript `String.prototype.toUpperCase()` (character-wise; exact on the
ASCII clue words the game uses). -/
def jsToUpper (w : String) : String := ⟨w.data.map Char.toUpper⟩

/-- `giveClue(word, number)` (supabase-config.js variant, which additionally
appends to the clue history; `now` stands for `Date.now()`).  Returns the
boolean result together with the state.  The only checks are the two format
checks; rejected calls return `false` before any mutation. -/
def giveClue (s : GState) (word : String) (number : Int) (now : Int) : Bool × GState :=
  if jsTrim word = "" then (false, s)
  else if jsIncludesSpace (jsTrim word) then (false, s)
  else
    (true,
      { s with
        currentClue := some (jsTrim (jsToUpper word)),
        currentClueNumber := number,
        guessesRemaining := if number = 0 then 99 else number + 1,
        clueHistory := s.clueHistory ++
          [{ id := now, team := s.currentTurn, word := jsTrim (jsToUpper word),
             number := number, stillApplies := true }] })

/-! ## State synchronisation -/

/-- The remote record (one row of the `games` table) as seen by the client;
absent/null JSON fields are `none`. -/
structure Snapshot where
  revealed : Option (List Bool)
  current_turn : Option String
  red_remaining : Option Int
  blue_remaining : Option Int
  game_over : Option Bool
  winner : Option String
  current_clue : Option String
  current_clue_number : Option Int
  guesses_remaining : Option Int
  clue_history : Option (List ClueEntry)
  players : Option (List (String × String))
  last_action : Option Nat
  new_game_redirect : Option String
deriving Repr, DecidableEq

/-- JavaScript `v || dflt` for a string field: null/undefined and the empty
string are falsy. -/
def jsStr : Option String → String → String
  | some v, dflt => if v = "" then dflt else v
  | none, dflt => dflt

/-- JavaScript `v || null` for a string field. -/
def jsStrN : Option String → Option String
  | some v => if v = "" then none else some v
  | none => none

/-- `applySyncedState(data)`: overwrites the dynamic fields of the local state
with the snapshot, substituting defaults for absent fields exactly as the
source's `||` / `??` expressions do.  The board fields (`words`, `cardTypes`,
`startingTeam`) are never synced. -/
def applySyncedState (s : GState) (d : Snapshot) : GState :=
  { s with
    revealed := d.revealed.getD (List.replicate 25 false),
    currentTurn := jsStr d.current_turn s.startingTeam,
    redRemaining := d.red_remaining.getD (if s.startingTeam = "red" then 9 else 8),
    blueRemaining := d.blue_remaining.getD (if s.startingTeam = "blue" then 9 else 8),
    gameOver := d.game_over.getD false,
    winner := jsStrN d.winner,
    currentClue := jsStrN d.current_clue,
    currentClueNumber := d.current_clue_number.getD 0,
    guessesRemaining := d.guesses_remaining.getD 0,
    clueHistory := d.clue_history.getD [],
    players := d.players.getD [],
    lastAction := d.last_action }

/-- Timestamp of an optional `last_action` value: `new Date(x).getTime()`,
with the local fallback `0` for a missing value. -/
def tsOf : Option Nat → Nat
  | some t => t
  | none => 0

/-- What the subscription callback did with a notification. -/
inductive SyncAction where
  | adopted
  | discarded
  | redirect (code : String)
deriving Repr, DecidableEq

/-- The timestamp comparison of the subscription callback (also used by the
polling fallback): adopt the snapshot exactly when its `last_action` is
strictly greater than the local one. -/
def handleMerge (s : GState) (d : Snapshot) : GState × SyncAction :=
  if tsOf s.lastAction < tsOf d.last_action then (applySyncedState s d, .adopted)
  else (s, .discarded)

/-- The body of the realtime subscription callback for a non-null payload:
a truthy `new_game_redirect` short-circuits into the cross-game handoff,
otherwise the timestamp comparison runs. -/
def handleNotification (s : GState) (d : Snapshot) : GState × SyncAction :=
  match d.new_game_redirect with
  | some code => if code = "" then handleMerge s d else (s, .redirect code)
  | none => handleMerge s d

/-! ## Concrete boards, states and snapshots used by witnesses and
counterexamples -/

/-- A 26-entry duplicate-free word list standing in for `WORD_LIST`. -/
def exWordList : List String :=
  ["ALPHA", "BRAVO", "CHARLIE", "DELTA", "ECHO", "FOXTROT", "GOLF", "HOTEL",
   "INDIA", "JULIET", "KILO", "LIMA", "MIKE", "NOVEMBER", "OSCAR", "PAPA",
   "QUEBEC", "ROMEO", "SIERRA", "TANGO", "UNIFORM", "VICTOR", "WHISKEY",
   "XRAY", "YANKEE", "ZULU"]

/-- A 25-card role column whose first card is `first`. -/
def exRoles (first : String) : List String :=
  first :: (List.replicate 9 "red" ++ List.replicate 8 "blue" ++ List.replicate 7 "neutral")

/-- A mid-game state: red's turn, an active clue worth 2 guesses. -/
def exState (first : String) : GState :=
  { words := List.replicate 25 "W", cardTypes := exRoles first,
    startingTeam := "red", revealed := List.replicate 25 false,
    currentTurn := "red", redRemaining := 9, blueRemaining := 8,
    gameOver := false, winner := none, currentClue := some "HINT",
    currentClueNumber := 2, guessesRemaining := 2, clueHistory := [],
    players := [], lastAction := none }

/-- Red's turn with only one red card left, assassin at index 0: the
configuration where the assassin and the would-be own win coincide. -/
def exAssassin : GState := { exState "assassin" with redRemaining := 1 }

/-- Red's turn, but the blue card at index 0 is blue's last remaining card. -/
def exLastBlue : GState := { exState "blue" with blueRemaining := 1, redRemaining := 5 }

/-- A game already over with a standing clue. -/
def exOver : GState := { exState "neutral" with gameOver := true, currentClue := some "OLD" }

/-- A remote snapshot with an all-false revealed mask and timestamp 5. -/
def exWipeSnap : Snapshot :=
  { revealed := some (List.replicate 25 false), current_turn := some "blue",
    red_remaining := some 9, blue_remaining := some 8, game_over := some false,
    winner := none, current_clue := none, current_clue_number := some 0,
    guesses_remaining := some 0, clue_history := some [], players := some [],
    last_action := some 5, new_game_redirect := none }

/-- A remote snapshot carrying a new-game redirect and timestamp 7. -/
def exRedirectSnap : Snapshot :=
  { exWipeSnap with new_game_redirect := some "FRESH9", last_action := some 7 }

/-! ## Helper lemmas: the Fisher-Yates loop permutes its input -/

theorem cons_set_perm : ∀ (t : List α) (m : Nat) (x h : α),
    t[m]? = some x → (x :: t.set m h).Perm (h :: t) := by
  intro t
  induction t with
  | nil => intro m x h hm; simp at hm
  | cons a t ih =>
    intro m x h hm
    cases m with
    | zero =>
      simp at hm
      subst hm
      simpa using List.Perm.swap h a t
    | succ k =>
      simp at hm
      have h1 : (x :: a :: t.set k h).Perm (a :: x :: t.set k h) := List.Perm.swap a x _
      have h2 : (a :: x :: t.set k h).Perm (a :: h :: t) := List.Perm.cons a (ih k x h hm)
      have h3 : (a :: h :: t).Perm (h :: a :: t) := List.Perm.swap h a t
      simpa using (h1.trans h2).trans h3

theorem set_set_swap_perm : ∀ (l : List α) (i j : Nat) (x y : α),
    l[i]? = some x → l[j]? = some y → ((l.set i y).set j x).Perm l := by
  intro l
  induction l with
  | nil => intro i j x y hi hj; simp at hi
  | cons a t ih =>
    intro i j x y hi hj
    cases i with
    | zero =>
      simp at hi
      subst hi
      cases j with
      | zero =>
        simp at hj
        subst hj
        simp
      | succ m =>
        simp at hj
        have := cons_set_perm t m y a hj
        simpa using this
    | succ n =>
      simp at hi
      cases j with
      | zero =>
        simp at hj
        subst hj
        have := cons_set_perm t n x a hi
        simpa using this
      | succ m =>
        simp at hj
        have := ih n m x y hi hj
        simpa using List.Perm.cons a this

theorem swapL_perm (l : List α) (i j : Nat) : (swapL l i j).Perm l := by
  unfold swapL
  split
  case h_1 x y hi hj => exact set_set_swap_perm l i j x y hi hj
  case h_2 => exact List.Perm.refl l

theorem shuffleAux_perm : ∀ (i : Nat) (r : SeededRandom) (res : List α),
    (shuffleAux i r res).2.Perm res := by
  intro i
  induction i with
  | zero => intro r res; exact List.Perm.refl res
  | succ k ih =>
    intro r res
    exact (ih _ _).trans (swapL_perm res (k + 1) _)

theorem shuffle_perm (r : SeededRandom) (l : List α) : (r.shuffle l).2.Perm l :=
  shuffleAux_perm (l.length - 1) r l

/-! ## Helper lemmas about the revealed mask -/

theorem getD_set_self_true (l : List Bool) (i : Nat) (h : i < l.length) :
    (l.set i true).getD i false = true := by
  simp [List.getD_eq_getElem?_getD, List.getElem?_set_self h]

theorem getD_set_true_of (l : List Bool) (i j : Nat) (h : l.getD i false = true) :
    (l.set j true).getD i false = true := by
  by_cases hij : i = j
  · subst hij
    by_cases hlt : i < l.length
    · simp [List.getD_eq_getElem?_getD, List.getElem?_set_self hlt]
    · rw [List.set_eq_of_length_le (by omega)]
      exact h
  · rw [List.getD_eq_getElem?_getD] at h ⊢
    rw [List.getElem?_set_ne (by omega)]
    exact h

theorem revealCard_revealed (s : GState) (idx : Nat) :
    (revealCard s idx).revealed = s.revealed.set idx true := by
  unfold revealCard endTurn
  dsimp only
  split_ifs <;> rfl

theorem giveClue_revealed (s : GState) (w : String) (n now : Int) :
    (giveClue s w n now).2.revealed = s.revealed := by
  unfold giveClue
  split_ifs <;> rfl

theorem base_roles_counts (st : String) (hst : st = "red" ∨ st = "blue") :
    (List.replicate 9 st ++ List.replicate 8 (otherTeam st)
        ++ List.replicate 7 "neutral" ++ ["assassin"]).count st = 9 ∧
    (List.replicate 9 st ++ List.replicate 8 (otherTeam st)
        ++ List.replicate 7 "neutral" ++ ["assassin"]).count (otherTeam st) = 8 ∧
    (List.replicate 9 st ++ List.replicate 8 (otherTeam st)
        ++ List.replicate 7 "neutral" ++ ["assassin"]).count "neutral" = 7 ∧
    (List.replicate 9 st ++ List.replicate 8 (otherTeam st)
        ++ List.replicate 7 "neutral" ++ ["assassin"]).count "assassin" = 1 ∧
    (List.replicate 9 st ++ List.replicate 8 (otherTeam st)
        ++ List.replicate 7 "neutral" ++ ["assassin"]).length = 25 := by
  rcases hst with h | h <;> subst h <;> decide

/-- C1: for every game code, if the canonical word list has at least 25
pairwise-distinct entries, `generateBoardFromSeed` returns exactly 25 words
and 25 card roles, with exactly 9 cards for the starting team, 8 for the
other team, 7 neutral and 1 assassin, and the 25 words pairwise distinct. -/
theorem board_invariant (wordList : List String) (gameCode : List Nat)
    (hlen : 25 ≤ wordList.length) (hnd : wordList.Nodup) :
    (generateBoardFromSeed wordList gameCode).words.length = 25 ∧
    (generateBoardFromSeed wordList gameCode).cardTypes.length = 25 ∧
    (generateBoardFromSeed wordList gameCode).words.Nodup ∧
    (generateBoardFromSeed wordList gameCode).cardTypes.count
        (generateBoardFromSeed wordList gameCode).startingTeam = 9 ∧
    (generateBoardFromSeed wordList gameCode).cardTypes.count
        (otherTeam (generateBoardFromSeed wordList gameCode).startingTeam) = 8 ∧
    (generateBoardFromSeed wordList gameCode).cardTypes.count "neutral" = 7 ∧
    (generateBoardFromSeed wordList gameCode).cardTypes.count "assassin" = 1 := by
  simp only [generateBoardFromSeed]
  have hw := shuffle_perm (⟨(hashCode gameCode).toNat⟩ : SeededRandom) wordList
  set W := SeededRandom.shuffle (⟨(hashCode gameCode).toNat⟩ : SeededRandom) wordList with hW
  set st := (if 2147483648 < (next32 W.1).2 then "red" else "blue") with hstdef
  have hst : st = "red" ∨ st = "blue" := by
    rw [hstdef]
    split
    · exact Or.inl rfl
    · exact Or.inr rfl
  have ht := shuffle_perm (next32 W.1).1
      (List.replicate 9 st ++ List.replicate 8 (otherTeam st)
        ++ List.replicate 7 "neutral" ++ ["assassin"])
  obtain ⟨c1, c2, c3, c4, c5⟩ := base_roles_counts st hst
  refine ⟨?_, ?_, ?_, ?_, ?_, ?_, ?_⟩
  · rw [List.length_take, hw.length_eq]
    omega
  · rw [ht.length_eq, c5]
  · exact ((List.take_sublist 25 W.2)).nodup (hw.nodup_iff.mpr hnd)
  · rw [ht.count_eq st, c1]
  · rw [ht.count_eq (otherTeam st), c2]
  · rw [ht.count_eq "neutral", c3]
  · rw [ht.count_eq "assassin", c4]

/-- Witness for C1: the board invariant instantiated at a concrete
26-entry duplicate-free word list and the game code "ABC". -/
theorem board_invariant_witness :
    (25 ≤ exWordList.length ∧ exWordList.Nodup) ∧
    ((generateBoardFromSeed exWordList [65, 66, 67]).words.length = 25 ∧
     (generateBoardFromSeed exWordList [65, 66, 67]).cardTypes.length = 25 ∧
     (generateBoardFromSeed exWordList [65, 66, 67]).words.Nodup ∧
     (generateBoardFromSeed exWordList [65, 66, 67]).cardTypes.count
         (generateBoardFromSeed exWordList [65, 66, 67]).startingTeam = 9 ∧
     (generateBoardFromSeed exWordList [65, 66, 67]).cardTypes.count
         (otherTeam (generateBoardFromSeed exWordList [65, 66, 67]).startingTeam) = 8 ∧
     (generateBoardFromSeed exWordList [65, 66, 67]).cardTypes.count "neutral" = 7 ∧
     (generateBoardFromSeed exWordList [65, 66, 67]).cardTypes.count "assassin" = 1) :=
  ⟨⟨by decide, by decide⟩, board_invariant exWordList [65, 66, 67] (by decide) (by decide)⟩

theorem hashStep_eq_specHashStep (h : Int) (c : Nat) : hashStep h c = specHashStep h c := by
  unfold hashStep specHashStep toInt32
  omega

/-- C10: `hashCode` computes the classic polynomial string hash — starting
from 0 and updating `hash` to `hash*31 + charCode` wrapped to 32-bit signed at
each character (the source's `(hash << 5) - hash + char` form coincides with
`*31` under 32-bit wraparound) — folded to non-negative via absolute value,
so the board seed derived from it is a non-negative integer. -/
theorem hash_code_is_poly_hash (codes : List Nat) :
    hashCode codes = specPolyHash codes ∧ 0 ≤ hashCode codes := by
  constructor
  · unfold hashCode specPolyHash
    congr 1
    exact List.foldl_ext hashStep specHashStep 0
      (fun a b _ => hashStep_eq_specHashStep a b)
  · exact abs_nonneg _

/-- C2: `revealCard` resolves its outcome in the source's priority order:
assassin first (game over, winner is the other team, turn counts untouched),
then red count reaching 0 (red wins), then blue count reaching 0 (blue wins),
then a role differing from the current turn (turn ends immediately), then
own-team bookkeeping (counts and guesses decremented).  In particular,
revealing the assassin when the current team's remaining count is 1 still
makes the other team the winner. -/
theorem reveal_priority (s : GState) (idx : Nat)
    (hidx : idx < s.revealed.length)
    (hunrev : s.revealed.getD idx false = false) :
    (s.cardTypes.getD idx "" = "assassin" →
        (revealCard s idx).gameOver = true ∧
        (revealCard s idx).winner = some (otherTeam s.currentTurn) ∧
        (revealCard s idx).currentTurn = s.currentTurn ∧
        (revealCard s idx).redRemaining = s.redRemaining ∧
        (revealCard s idx).blueRemaining = s.blueRemaining) ∧
    (s.cardTypes.getD idx "" = "red" → s.redRemaining = 1 →
        (revealCard s idx).gameOver = true ∧
        (revealCard s idx).winner = some "red") ∧
    (s.cardTypes.getD idx "" = "blue" → s.blueRemaining = 1 → s.redRemaining ≠ 0 →
        (revealCard s idx).gameOver = true ∧
        (revealCard s idx).winner = some "blue") ∧
    (s.cardTypes.getD idx "" ≠ "assassin" →
     (if s.cardTypes.getD idx "" = "red" then s.redRemaining - 1 else s.redRemaining) ≠ 0 →
     (if s.cardTypes.getD idx "" = "blue" then s.blueRemaining - 1 else s.blueRemaining) ≠ 0 →
     s.cardTypes.getD idx "" ≠ s.currentTurn →
        revealCard s idx =
          endTurn { s with
            revealed := s.revealed.set idx true,
            redRemaining :=
              if s.cardTypes.getD idx "" = "red" then s.redRemaining - 1 else s.redRemaining,
            blueRemaining :=
              if s.cardTypes.getD idx "" = "blue" then s.blueRemaining - 1
              else s.blueRemaining }) ∧
    (s.cardTypes.getD idx "" = s.currentTurn →
     (s.currentTurn = "red" ∨ s.currentTurn = "blue") →
     (if s.cardTypes.getD idx "" = "red" then s.redRemaining - 1 else s.redRemaining) ≠ 0 →
     (if s.cardTypes.getD idx "" = "blue" then s.blueRemaining - 1 else s.blueRemaining) ≠ 0 →
        (s.guessesRemaining - 1 = 0 →
          revealCard s idx =
            endTurn { s with
              revealed := s.revealed.set idx true,
              redRemaining :=
                if s.cardTypes.getD idx "" = "red" then s.redRemaining - 1
                else s.redRemaining,
              blueRemaining :=
                if s.cardTypes.getD idx "" = "blue" then s.blueRemaining - 1
                else s.blueRemaining,
              guessesRemaining := s.guessesRemaining - 1 }) ∧
        (s.guessesRemaining - 1 ≠ 0 →
          revealCard s idx =
            { s with
              revealed := s.revealed.set idx true,
              redRemaining :=
                if s.cardTypes.getD idx "" = "red" then s.redRemaining - 1
                else s.redRemaining,
              blueRemaining :=
                if s.cardTypes.getD idx "" = "blue" then s.blueRemaining - 1
                else s.blueRemaining,
              guessesRemaining := s.guessesRemaining - 1 })) := by
  refine ⟨?_, ?_, ?_, ?_, ?_⟩
  · intro hr
    simp only [revealCard]
    rw [hr]
    simp
  · intro hr hred
    simp only [revealCard]
    rw [hr]
    simp [hred]
  · intro hr hblue hred
    simp only [revealCard]
    rw [hr]
    simp [hblue, hred]
  · intro hna hr0 hb0 hmm
    by_cases hcr : s.cardTypes.getD idx "" = "red"
    · rw [if_pos hcr] at hr0
      rw [hcr, if_neg (by decide)] at hb0
      simp only [revealCard]
      rw [hcr] at hmm ⊢
      simp [endTurn, hmm, hr0, hb0]
    · by_cases hcb : s.cardTypes.getD idx "" = "blue"
      · rw [if_neg hcr] at hr0
        rw [if_pos hcb] at hb0
        simp only [revealCard]
        rw [hcb] at hmm ⊢
        simp [endTurn, hmm, hr0, hb0]
      · rw [if_neg hcr] at hr0
        rw [if_neg hcb] at hb0
        simp only [revealCard]
        rw [if_neg hcr, if_neg hcb, if_neg hna, if_neg hcr, if_neg hcb]
        rw [if_neg hr0, if_neg hb0, if_pos hmm]
  · intro hr hteam hr0 hb0
    rcases hteam with ht | ht
    · rw [ht] at hr
      rw [hr] at hr0 hb0 ⊢
      rw [if_pos rfl] at hr0
      rw [if_neg (by decide)] at hb0
      constructor
      · intro hg
        simp only [revealCard]
        rw [hr]
        simp [endTurn, ht, hr0, hb0, hg]
      · intro hg
        simp only [revealCard]
        rw [hr]
        simp [endTurn, ht, hr0, hb0, hg]
    · rw [ht] at hr
      rw [hr] at hr0 hb0 ⊢
      rw [if_neg (by decide)] at hr0
      rw [if_pos rfl] at hb0
      constructor
      · intro hg
        simp only [revealCard]
        rw [hr]
        simp [endTurn, ht, hr0, hb0, hg]
      · intro hg
        simp only [revealCard]
        rw [hr]
        simp [endTurn, ht, hr0, hb0, hg]

/-- Witness for C2: revealing the assassin at index 0 while red (the current
team) has only one card left still makes blue the winner. -/
theorem reveal_priority_witness :
    (0 < exAssassin.revealed.length ∧ exAssassin.revealed.getD 0 false = false ∧
     exAssassin.cardTypes.getD 0 "" = "assassin" ∧ exAssassin.redRemaining = 1 ∧
     exAssassin.currentTurn = "red") ∧
    (revealCard exAssassin 0).gameOver = true ∧
    (revealCard exAssassin 0).winner = some "blue" := by
  refine ⟨⟨by decide, by decide, by decide, by decide, by decide⟩, ?_⟩
  have h := (reveal_priority exAssassin 0 (by decide) (by decide)).1 (by decide)
  refine ⟨h.1, ?_⟩
  rw [h.2.1]
  decide

/-- Counterexample to C3 as stated: with red to play, an active clue and
GuessesRemaining = 2, revealing a blue card that is blue's last remaining card
ends the game (winner blue) rather than flipping the turn — the turn stays red,
the clue is not cleared, and GuessesRemaining keeps its prior value. -/
theorem wrong_team_reveal_cex :
    exLastBlue.currentTurn = "red" ∧ exLastBlue.currentClue = some "HINT" ∧
    exLastBlue.guessesRemaining = 2 ∧ exLastBlue.cardTypes.getD 0 "" = "blue" ∧
    exLastBlue.revealed.getD 0 false = false ∧
    (revealCard exLastBlue 0).currentTurn = "red" ∧
    (revealCard exLastBlue 0).currentClue = some "HINT" ∧
    (revealCard exLastBlue 0).guessesRemaining = 2 ∧
    (revealCard exLastBlue 0).gameOver = true ∧
    (revealCard exLastBlue 0).winner = some "blue" := by
  decide

/-- C3 amended: with the current turn on one team, revealing an unrevealed
index whose card belongs to the other team flips the turn, clears the clue and
zeroes GuessesRemaining regardless of its prior value — provided the reveal
does not bring the revealed team's remaining count to zero (and the current
team's count is not already zero), in which case the game ends instead. -/
theorem wrong_team_reveal (s : GState) (idx : Nat)
    (hT : s.currentTurn = "red" ∨ s.currentTurn = "blue")
    (hrole : s.cardTypes.getD idx "" = otherTeam s.currentTurn)
    (hidx : idx < s.revealed.length)
    (hcountA : s.currentTurn = "red" → s.blueRemaining ≠ 1 ∧ s.redRemaining ≠ 0)
    (hcountB : s.currentTurn = "blue" → s.redRemaining ≠ 1 ∧ s.blueRemaining ≠ 0) :
    (revealCard s idx).revealed.getD idx false = true ∧
    (revealCard s idx).currentTurn = otherTeam s.currentTurn ∧
    (revealCard s idx).currentClue = none ∧
    (revealCard s idx).guessesRemaining = 0 ∧
    (revealCard s idx).gameOver = s.gameOver := by
  rcases hT with ht | ht
  · obtain ⟨h1, h2⟩ := hcountA ht
    have h1' : s.blueRemaining - 1 ≠ 0 := by omega
    have hro : s.cardTypes.getD idx "" = "blue" := by rw [hrole, ht]; decide
    have hot : otherTeam s.currentTurn = "blue" := by rw [ht]; decide
    rw [hot]
    simp only [revealCard]
    rw [hro]
    simp [endTurn, ht, h1', h2, List.getElem?_set_self hidx, List.getD_eq_getElem?_getD]
    decide
  · obtain ⟨h1, h2⟩ := hcountB ht
    have h1' : s.redRemaining - 1 ≠ 0 := by omega
    have hro : s.cardTypes.getD idx "" = "red" := by rw [hrole, ht]; decide
    have hot : otherTeam s.currentTurn = "red" := by rw [ht]; decide
    rw [hot]
    simp only [revealCard]
    rw [hro]
    simp [endTurn, ht, h1', h2, List.getElem?_set_self hidx, List.getD_eq_getElem?_getD]
    decide

/-- Witness for C3 amended: red's turn, guesses remaining 2, revealing the
blue card at index 0 (blue still has 8 cards) flips the turn to blue, clears
the clue and zeroes the guesses. -/
theorem wrong_team_reveal_witness :
    ((exState "blue").currentTurn = "red" ∨ (exState "blue").currentTurn = "blue") ∧
    (exState "blue").cardTypes.getD 0 "" = otherTeam (exState "blue").currentTurn ∧
    0 < (exState "blue").revealed.length ∧
    (exState "blue").guessesRemaining = 2 ∧
    (revealCard (exState "blue") 0).revealed.getD 0 false = true ∧
    (revealCard (exState "blue") 0).currentTurn = otherTeam (exState "blue").currentTurn ∧
    (revealCard (exState "blue") 0).currentClue = none ∧
    (revealCard (exState "blue") 0).guessesRemaining = 0 := by
  have h := wrong_team_reveal (exState "blue") 0 (Or.inl (by decide)) (by decide)
    (by decide) (by decide) (by decide)
  exact ⟨Or.inl (by decide), by decide, by decide, by decide, h.1, h.2.1, h.2.2.1, h.2.2.2.1⟩

/-- C4: an accepted clue returns success and sets GuessesRemaining to the
unlimited sentinel 99 when the count is 0 and to count + 1 otherwise. -/
theorem clue_guess_semantics (s : GState) (word : String) (number now : Int)
    (hne : jsTrim word ≠ "") (hsp : jsIncludesSpace (jsTrim word) = false) :
    (giveClue s word number now).1 = true ∧
    (giveClue s word number now).2.guessesRemaining =
      (if number = 0 then 99 else number + 1) := by
  simp [giveClue, hne, hsp]

/-- Witness for C4: giveClue("APPLE", 2) leaves GuessesRemaining = 3, and
giveClue("APPLE", 0) leaves the sentinel 99. -/
theorem clue_guess_semantics_witness :
    (jsTrim "APPLE" ≠ "" ∧ jsIncludesSpace (jsTrim "APPLE") = false) ∧
    (giveClue (exState "neutral") "APPLE" 2 0).1 = true ∧
    (giveClue (exState "neutral") "APPLE" 2 0).2.guessesRemaining = 3 ∧
    (giveClue (exState "neutral") "APPLE" 0 0).2.guessesRemaining = 99 := by
  refine ⟨⟨by decide, by decide⟩, ?_, ?_, ?_⟩
  · exact (clue_guess_semantics (exState "neutral") "APPLE" 2 0 (by decide) (by decide)).1
  · rw [(clue_guess_semantics (exState "neutral") "APPLE" 2 0 (by decide) (by decide)).2]
    decide
  · rw [(clue_guess_semantics (exState "neutral") "APPLE" 0 0 (by decide) (by decide)).2]
    decide

/-- Counterexample to C5 as stated: with the game already over and a standing
clue, giveClue("APPLE", 1) still succeeds and overwrites CurrentClue — the
function checks neither the acting role, nor CurrentClue being null, nor the
game-over flag. -/
theorem give_clue_validation_cex :
    exOver.gameOver = true ∧ exOver.currentClue = some "OLD" ∧
    (giveClue exOver "APPLE" 1 0).1 = true ∧
    (giveClue exOver "APPLE" 1 0).2.currentClue = some "APPLE" := by
  decide

/-- C5 amended: giveClue rejects exactly an empty (after trimming) clue word
and a clue word containing a space, returning failure and leaving the state
unchanged; every other call succeeds regardless of the acting role,
CurrentClue, or the game-over flag (those gates live in the UI layer). -/
theorem give_clue_validation (s : GState) (word : String) (number now : Int) :
    (jsTrim word = "" → giveClue s word number now = (false, s)) ∧
    (jsTrim word ≠ "" → jsIncludesSpace (jsTrim word) = true →
        giveClue s word number now = (false, s)) ∧
    (jsTrim word ≠ "" → jsIncludesSpace (jsTrim word) = false →
        (giveClue s word number now).1 = true ∧
        (giveClue s word number now).2.currentClue = some (jsTrim (jsToUpper word))) := by
  refine ⟨?_, ?_, ?_⟩
  · intro h
    simp [giveClue, h]
  · intro h1 h2
    simp [giveClue, h1, h2]
  · intro h1 h2
    simp [giveClue, h1, h2]

/-- Witness for C5 amended: giveClue("", 1) and giveClue("two words", 1) both
reject and return the state unchanged. -/
theorem give_clue_validation_witness :
    jsTrim "" = "" ∧
    (jsTrim "two words" ≠ "" ∧ jsIncludesSpace (jsTrim "two words") = true) ∧
    giveClue (exState "neutral") "" 1 0 = (false, exState "neutral") ∧
    giveClue (exState "neutral") "two words" 1 0 = (false, exState "neutral") := by
  refine ⟨by decide, ⟨by decide, by decide⟩, ?_, ?_⟩
  · exact (give_clue_validation (exState "neutral") "" 1 0).1 (by decide)
  · exact (give_clue_validation (exState "neutral") "two words" 1 0).2.1 (by decide) (by decide)

/-- Counterexample to C6 as stated: starting from a reachable state in which
index 0 has just been revealed, adopting a strictly newer remote snapshot
whose revealed array is all-false (applySyncedState, reached through the
subscription handler) reverts the entry to false. -/
theorem reveal_monotonic_cex :
    (revealCard (exState "neutral") 0).revealed.getD 0 false = true ∧
    tsOf (revealCard (exState "neutral") 0).lastAction < tsOf exWipeSnap.last_action ∧
    (handleNotification (revealCard (exState "neutral") 0) exWipeSnap).2
      = SyncAction.adopted ∧
    (handleNotification (revealCard (exState "neutral") 0) exWipeSnap).1.revealed.getD 0 false
      = false := by
  decide

/-- C6 amended: the local transitions revealCard, giveClue and endTurn never
clear a revealed entry — revealCard only sets entries true and the other two
leave the mask alone.  applySyncedState, however, replaces the mask wholesale
with the snapshot's array, so adopting a snapshot that lacks a reveal can
regress an entry (see the counterexample). -/
theorem reveal_monotonic_local (s : GState) (i idx : Nat) (w : String) (n now : Int)
    (h : s.revealed.getD i false = true) :
    (revealCard s idx).revealed.getD i false = true ∧
    (giveClue s w n now).2.revealed.getD i false = true ∧
    (endTurn s).revealed.getD i false = true := by
  refine ⟨?_, ?_, ?_⟩
  · rw [revealCard_revealed]
    exact getD_set_true_of s.revealed i idx h
  · rw [giveClue_revealed]
    exact h
  · exact h

/-- Witness for C6 amended: after revealing index 0, a further reveal, a clue
and an end of turn all keep entry 0 of the mask true. -/
theorem reveal_monotonic_local_witness :
    (revealCard (exState "neutral") 0).revealed.getD 0 false = true ∧
    (revealCard (revealCard (exState "neutral") 0) 1).revealed.getD 0 false = true ∧
    (giveClue (revealCard (exState "neutral") 0) "FRUIT" 2 9).2.revealed.getD 0 false = true ∧
    (endTurn (revealCard (exState "neutral") 0)).revealed.getD 0 false = true := by
  have h := reveal_monotonic_local (revealCard (exState "neutral") 0) 0 1 "FRUIT" 2 9 (by decide)
  exact ⟨by decide, h.1, h.2.1, h.2.2⟩

/-- Counterexample to C7 as stated: a snapshot carrying a non-null
new_game_redirect and a strictly newer timestamp is not adopted — the handler
short-circuits into the cross-game redirect, leaving the local state
untouched (adoption would have changed it). -/
theorem lww_adopt_cex :
    tsOf (exState "neutral").lastAction < tsOf exRedirectSnap.last_action ∧
    handleNotification (exState "neutral") exRedirectSnap
      = (exState "neutral", SyncAction.redirect "FRESH9") ∧
    applySyncedState (exState "neutral") exRedirectSnap ≠ exState "neutral" := by
  decide

/-- C7 amended: for every snapshot without a new-game redirect, the handler
adopts (overwriting the local state) exactly when the snapshot's timestamp is
strictly greater than the local one, and discards it otherwise.  Adoption
records the snapshot's timestamp, so applying the same snapshot — or any
older-or-equal one — a second time is discarded and changes nothing, so
GuessesRemaining, RevealedMask and GameOver never regress from a replay. -/
theorem lww_adopt (s : GState) (d : Snapshot) (hred : d.new_game_redirect = none) :
    (tsOf s.lastAction < tsOf d.last_action →
        handleNotification s d = (applySyncedState s d, SyncAction.adopted)) ∧
    (¬ tsOf s.lastAction < tsOf d.last_action →
        handleNotification s d = (s, SyncAction.discarded)) ∧
    (handleNotification (handleNotification s d).1 d).1 = (handleNotification s d).1 := by
  refine ⟨?_, ?_, ?_⟩
  · intro h
    simp [handleNotification, hred, handleMerge, h]
  · intro h
    simp [handleNotification, hred, handleMerge, h]
  · by_cases h : tsOf s.lastAction < tsOf d.last_action
    · have h2 : ¬ tsOf (applySyncedState s d).lastAction < tsOf d.last_action := by
        simp [applySyncedState]
      simp [handleNotification, hred, handleMerge, h, h2]
    · simp [handleNotification, hred, handleMerge, h]

/-- Witness for C7 amended: the all-false snapshot with timestamp 5 is adopted
over a local state with no timestamp, and replaying it is a no-op. -/
theorem lww_adopt_witness :
    exWipeSnap.new_game_redirect = none ∧
    tsOf (exState "neutral").lastAction < tsOf exWipeSnap.last_action ∧
    handleNotification (exState "neutral") exWipeSnap
      = (applySyncedState (exState "neutral") exWipeSnap, SyncAction.adopted) ∧
    (handleNotification (handleNotification (exState "neutral") exWipeSnap).1 exWipeSnap).1
      = (handleNotification (exState "neutral") exWipeSnap).1 := by
  have h := lww_adopt (exState "neutral") exWipeSnap (by decide)
  exact ⟨by decide, by decide, h.1 (by decide), h.2.2⟩

/-- Counterexample to C8's idempotence: calling endTurn twice flips the turn
back, so the double call differs from the single call in CurrentTurn — and
not merely in a timestamp, since the local state's lastAction is untouched by
endTurn. -/
theorem end_turn_idem_cex :
    endTurn (endTurn (exState "neutral")) ≠ endTurn (exState "neutral") ∧
    (endTurn (exState "neutral")).currentTurn = "blue" ∧
    (endTurn (endTurn (exState "neutral"))).currentTurn = "red" ∧
    (endTurn (endTurn (exState "neutral"))).lastAction
      = (endTurn (exState "neutral")).lastAction := by
  decide

/-- C8 amended: endTurn clears CurrentClue, the clue count and
GuessesRemaining and flips CurrentTurn to the other team; the clearing is
idempotent, but the flip is an involution — a second call flips the turn
again (restoring a red/blue turn) instead of leaving the state fixed, and the
two results differ exactly in CurrentTurn. -/
theorem end_turn_effect (s : GState) :
    (endTurn s).currentClue = none ∧
    (endTurn s).currentClueNumber = 0 ∧
    (endTurn s).guessesRemaining = 0 ∧
    (endTurn s).currentTurn = otherTeam s.currentTurn ∧
    (endTurn s).lastAction = s.lastAction ∧
    endTurn (endTurn s)
      = { endTurn s with currentTurn := otherTeam (otherTeam s.currentTurn) } :=
  ⟨rfl, rfl, rfl, rfl, rfl, rfl⟩

/-- Counterexample to C9: with a 3-entry word list, generateBoardFromSeed
returns normally — there is no length validation and no error path in board
generation (no InsufficientWordsError exists in the code); the board simply
carries only 3 words, while still carrying 25 card roles. -/
theorem short_word_list_cex :
    (generateBoardFromSeed ["ALPHA", "BRAVO", "CHARLIE"] [65, 66, 67]).words.length = 3 ∧
    (generateBoardFromSeed ["ALPHA", "BRAVO", "CHARLIE"] [65, 66, 67]).cardTypes.length
      = 25 := by
  set_option maxRecDepth 4000 in decide

/-- C9 amended: board generation is total and never signals an error: for
every word list it returns a board with 25 card roles and min(25, length)
words — fewer than 25 entries silently yield a short board, and at least 25
entries yield exactly 25 words. -/
theorem board_generation_total (wordList : List String) (gameCode : List Nat) :
    (generateBoardFromSeed wordList gameCode).cardTypes.length = 25 ∧
    (generateBoardFromSeed wordList gameCode).words.length = min 25 wordList.length := by
  simp only [generateBoardFromSeed]
  constructor
  · rw [(shuffle_perm _ _).length_eq]
    simp
  · rw [List.length_take, (shuffle_perm _ _).length_eq]

end Codenames
